import Mathlib

/-!
Verification of the TOR_RC resilient fetch layer.

This file shallowly embeds the parts of the repository the claims are
about:

* `tor/tor_core.py` — `TorController.newnym` and its NEWNYM cooldown;
* `tor/session_manager.py` — the `request` retry/rotation loop,
  `_maybe_update_ip_cache`, `_maybe_rotate_by_time`, `start_session`,
  `_ensure_started`;
* `news_scrapers/pr_news_wire.py` — `extract_pr_newswire_content`,
  `_clean_paragraph_text` and `PRNewswireScraper.scrape_article`.

Wall-clock instants and durations are modelled as rationals (the Python
code uses floats from `time.time()`); HTTP status codes as naturals.
The nondeterministic environment (what each HTTP attempt yields, what the
exit-IP probe observes, which startup step fails) is passed in explicitly,
and the side effects the claims count (HTTP attempts, rotation requests,
backoff sleeps) are recorded as an event list.
-/

namespace TorRC

/-! ## Identity controller (`tor/tor_core.py`) -/

/-- State of `TorController`: only `last_newnym_ts` matters for the
cooldown logic (`0.0` at construction). -/
structure TorController where
  last_newnym_ts : Rat
deriving DecidableEq

/-- Outcome of a rotation request, `RotationOutcome` of the spec. -/
inductive RotationOutcome
  | Rotated
  | SkippedCooldown
deriving DecidableEq

/-- Result of `TorController.newnym`: the updated controller, the outcome,
how many NEWNYM signals were sent to the daemon, and the time when the
call returns (after the optional build-wait sleep). -/
structure NewnymResult where
  ctrl : TorController
  outcome : RotationOutcome
  signalsSent : Nat
  now : Rat
deriving DecidableEq

/-- Model of `TorController.can_newnym`: the cooldown has elapsed since the last
NEWNYM signal. -/
def can_newnym (cooldown : Rat) (c : TorController) (now : Rat) : Bool :=
  cooldown ≤ now - c.last_newnym_ts

/-- Model of `TorController.newnym(wait_for_build)`: if the cooldown is still
active, skip without contacting the daemon; otherwise send the signal,
record `last_newnym_ts = now` and, when `waitForBuild`, sleep for the
build-wait duration. -/
def newnym (cooldown buildWait : Rat) (waitForBuild : Bool)
    (c : TorController) (now : Rat) : NewnymResult :=
  if can_newnym cooldown c now then
    { ctrl := { last_newnym_ts := now }
      outcome := .Rotated
      signalsSent := 1
      now := if waitForBuild then now + buildWait else now }
  else
    { ctrl := c, outcome := .SkippedCooldown, signalsSent := 0, now := now }

/-- C4: a `newnym` call within the cooldown returns `SkippedCooldown`,
sends no signal to the daemon and leaves `last_newnym_ts` unchanged; a
call at or past the cooldown sends the signal, returns `Rotated` and
records `last_newnym_ts = now`; hence two calls within the cooldown give
`Rotated` then `SkippedCooldown`, and a third call after the cooldown has
elapsed (measured from the first call) gives `Rotated` again. -/
theorem newnym_cooldown_protocol (cooldown buildWait : Rat) (w : Bool)
    (c0 : TorController) (t1 t2 t3 : Rat)
    (h1 : cooldown ≤ t1 - c0.last_newnym_ts)
    (h2 : t2 - t1 < cooldown)
    (h3 : cooldown ≤ t3 - t1) :
    (∀ (c : TorController) (now : Rat), now - c.last_newnym_ts < cooldown →
        newnym cooldown buildWait w c now =
          { ctrl := c, outcome := .SkippedCooldown, signalsSent := 0, now := now }) ∧
    (∀ (c : TorController) (now : Rat), cooldown ≤ now - c.last_newnym_ts →
        (newnym cooldown buildWait w c now).outcome = .Rotated ∧
        (newnym cooldown buildWait w c now).signalsSent = 1 ∧
        (newnym cooldown buildWait w c now).ctrl.last_newnym_ts = now) ∧
    ((newnym cooldown buildWait w c0 t1).outcome = .Rotated ∧
      (newnym cooldown buildWait w
          (newnym cooldown buildWait w c0 t1).ctrl t2).outcome = .SkippedCooldown ∧
      (newnym cooldown buildWait w
          (newnym cooldown buildWait w
            (newnym cooldown buildWait w c0 t1).ctrl t2).ctrl t3).outcome = .Rotated) := by
  have skip : ∀ (c : TorController) (now : Rat), now - c.last_newnym_ts < cooldown →
      newnym cooldown buildWait w c now =
        { ctrl := c, outcome := .SkippedCooldown, signalsSent := 0, now := now } := by
    intro c now h
    simp [newnym, can_newnym, not_le.mpr h]
  have rot : ∀ (c : TorController) (now : Rat), cooldown ≤ now - c.last_newnym_ts →
      newnym cooldown buildWait w c now =
        { ctrl := { last_newnym_ts := now }, outcome := .Rotated, signalsSent := 1,
          now := if w then now + buildWait else now } := by
    intro c now h
    simp [newnym, can_newnym, h]
  refine ⟨skip, ?_, ?_⟩
  · intro c now h
    simp [rot c now h]
  · have e1 := rot c0 t1 h1
    have e2 : (newnym cooldown buildWait w c0 t1).ctrl = { last_newnym_ts := t1 } := by
      rw [e1]
    have e3 := skip { last_newnym_ts := t1 } t2 h2
    have e4 := rot { last_newnym_ts := t1 } t3 h3
    refine ⟨by rw [e1], ?_, ?_⟩
    · rw [e2, e3]
    · rw [e2, e3]
      rw [e4]

/-- Witness for `newnym_cooldown_protocol` at cooldown 10s (the default),
initial controller, calls at times 20, 25 and 35. -/
theorem newnym_cooldown_protocol_witness :
    ((newnym 10 10 true { last_newnym_ts := 0 } 20).outcome = .Rotated ∧
      (newnym 10 10 true
          (newnym 10 10 true { last_newnym_ts := 0 } 20).ctrl 25).outcome = .SkippedCooldown ∧
      (newnym 10 10 true
          (newnym 10 10 true
            (newnym 10 10 true { last_newnym_ts := 0 } 20).ctrl 25).ctrl 35).outcome = .Rotated) :=
  (newnym_cooldown_protocol 10 10 true { last_newnym_ts := 0 } 20 25 35
    (by norm_num) (by norm_num) (by norm_num)).2.2

/-! ## The retry/rotation loop of `TorSessionManager.request`
(`tor/session_manager.py`, lines 231-271)

The environment supplies, for each attempt number, what
`self.session.request(...)` yields: either a transport-level
`requests.exceptions.RequestException`, or a response with a status
code.  The loop body is translated branch by branch; `renew_ip` is
modelled by its effect on the controller (its extra bookkeeping of
`last_ip_change_time` is modelled separately below for the probe
claims, which the loop never reads). -/

/-- What one call of `self.session.request(...)` yields. -/
inductive AttemptOutcome
  | transportError
  | response (status : Nat)
deriving DecidableEq

/-- Observable events the claims count, in program order. -/
inductive Ev
  | httpAttempt (n : Nat)
  | rotationRequest (outcome : RotationOutcome)
  | backoffSleep (delay : Rat)
deriving DecidableEq

/-- How `request` terminates: a returned response, a propagated
`HTTPError` from `raise_for_status`, a propagated transport exception,
or the `RuntimeError` after falling out of the loop. -/
inductive ReqResult
  | success (status : Nat)
  | httpError (status : Nat)
  | transportFail
  | exhausted
deriving DecidableEq

/-- Configuration of the session manager and controller, from
`configurations/tor_configs.py` (defaults in comments). -/
structure TorCfg where
  maxRetries : Nat        -- DEFAULT_MAX_RETRIES, 3
  backoffFactor : Rat     -- DEFAULT_BACKOFF_FACTOR, 1.5
  newnymCooldown : Rat    -- TOR_NEWNYM_COOLDOWN, 10
  newnymBuildWait : Rat   -- TOR_NEWNYM_BUILD_WAIT, 10
deriving DecidableEq

/-- Mutable state threaded through the retry loop: the controller and
the current wall-clock time (advanced by sleeps). -/
structure LoopState where
  ctrl : TorController
  now : Rat
deriving DecidableEq

/-- Model of `TorSessionManager.renew_ip`, restricted to its effect on the
controller: one `newnym(wait_for_build=True)` call. -/
def renew_ip_step (cfg : TorCfg) (s : LoopState) : LoopState × RotationOutcome :=
  let r := newnym cfg.newnymCooldown cfg.newnymBuildWait true s.ctrl s.now
  ({ ctrl := r.ctrl, now := r.now }, r.outcome)

/-- Result of one iteration of the `for attempt in range(...)` body:
either the whole call finishes (return or raise), or control reaches
the next iteration. -/
inductive IterOut
  | done (r : ReqResult) (evs : List Ev)
  | next (s : LoopState) (evs : List Ev)
deriving DecidableEq

/-- Prepend already-recorded events to an iteration result. -/
def IterOut.withEvs (pre : List Ev) : IterOut → IterOut
  | .done r evs => .done r (pre ++ evs)
  | .next s evs => .next s (pre ++ evs)

/-- The `except requests.exceptions.RequestException` handler
(lines 254-269): rotate, and on the final attempt re-raise the caught
error `err`, otherwise back off `backoffFactor * attempt` seconds and
continue. -/
def handle_request_exception (cfg : TorCfg) (attempt : Nat) (err : ReqResult)
    (s : LoopState) : IterOut :=
  let p := renew_ip_step cfg s
  if attempt = cfg.maxRetries then
    .done err [.rotationRequest p.2]
  else
    let d := cfg.backoffFactor * (attempt : Rat)
    .next { p.1 with now := p.1.now + d } [.rotationRequest p.2, .backoffSleep d]

/-- Predicate for `requests.Response.raise_for_status`: it raises exactly for
4xx and 5xx status codes. -/
def raise_for_status_raises (status : Nat) : Bool :=
  decide (400 ≤ status) && decide (status < 600)

/-- One iteration of the retry loop body (lines 232-269).  On 403/429
the code rotates and, on the final attempt, `raise_for_status` raises
inside the `try`, so the handler runs and rotates a second time; any
other 4xx/5xx status raises straight into the handler; a non-error
status is returned immediately. -/
def request_iter (cfg : TorCfg) (outcome : AttemptOutcome) (attempt : Nat)
    (s : LoopState) : IterOut :=
  match outcome with
  | .transportError =>
      (handle_request_exception cfg attempt .transportFail s).withEvs
        [.httpAttempt attempt]
  | .response st =>
      if st = 403 ∨ st = 429 then
        let p := renew_ip_step cfg s
        if attempt = cfg.maxRetries then
          (handle_request_exception cfg attempt (.httpError st) p.1).withEvs
            [.httpAttempt attempt, .rotationRequest p.2]
        else
          let d := cfg.backoffFactor * (attempt : Rat)
          .next { p.1 with now := p.1.now + d }
            [.httpAttempt attempt, .rotationRequest p.2, .backoffSleep d]
      else if raise_for_status_raises st then
        (handle_request_exception cfg attempt (.httpError st) s).withEvs
          [.httpAttempt attempt]
      else
        .done (.success st) [.httpAttempt attempt]

/-- The loop `for attempt in range(1, max_retries_per_request + 1)`:
`fuel` is the number of iterations left, `attempt` the current attempt
number; falling out of the loop reaches the final RuntimeError
(line 271). -/
def request_loop (cfg : TorCfg) (outcomes : Nat → AttemptOutcome) :
    Nat → Nat → LoopState → ReqResult × List Ev
  | 0, _, _ => (.exhausted, [])
  | fuel + 1, attempt, s =>
      match request_iter cfg (outcomes attempt) attempt s with
      | .done r evs => (r, evs)
      | .next s2 evs =>
          let rest := request_loop cfg outcomes fuel (attempt + 1) s2
          (rest.1, evs ++ rest.2)

/-- Model of `TorSessionManager.request`, from the top of the retry loop. -/
def tor_request (cfg : TorCfg) (outcomes : Nat → AttemptOutcome)
    (s0 : LoopState) : ReqResult × List Ev :=
  request_loop cfg outcomes cfg.maxRetries 1 s0

/-- Attempt numbers of the HTTP attempts recorded in an event list. -/
def attemptsOf (evs : List Ev) : List Nat :=
  evs.filterMap fun e =>
    match e with
    | .httpAttempt n => some n
    | _ => none

/-- Backoff-sleep durations recorded in an event list. -/
def sleepsOf (evs : List Ev) : List Rat :=
  evs.filterMap fun e =>
    match e with
    | .backoffSleep d => some d
    | _ => none

/-- Rotation-request outcomes recorded in an event list. -/
def rotationsOf (evs : List Ev) : List RotationOutcome :=
  evs.filterMap fun e =>
    match e with
    | .rotationRequest o => some o
    | _ => none

/-- An attempt outcome the loop retries on: a transport failure, or a
response whose status makes `raise_for_status` raise. -/
def retryable : AttemptOutcome → Prop
  | .transportError => True
  | .response st => 400 ≤ st ∧ st < 600

instance : DecidablePred retryable := by
  intro o
  cases o with
  | transportError => exact .isTrue trivial
  | response st => exact inferInstanceAs (Decidable (_ ∧ _))

/-- The error `request` propagates when the final attempt yields this
outcome. -/
def errResult : AttemptOutcome → ReqResult
  | .transportError => .transportFail
  | .response st => .httpError st

/-- Number of rotation requests the final iteration performs for this
outcome: two for 403/429 (branch plus handler), one otherwise. -/
def rotationsOnFinal : AttemptOutcome → Nat
  | .transportError => 1
  | .response st => if st = 403 ∨ st = 429 then 2 else 1

theorem attemptsOf_append (a b : List Ev) :
    attemptsOf (a ++ b) = attemptsOf a ++ attemptsOf b :=
  List.filterMap_append a b _

theorem sleepsOf_append (a b : List Ev) :
    sleepsOf (a ++ b) = sleepsOf a ++ sleepsOf b :=
  List.filterMap_append a b _

theorem rotationsOf_append (a b : List Ev) :
    rotationsOf (a ++ b) = rotationsOf a ++ rotationsOf b :=
  List.filterMap_append a b _

theorem attemptsOf_rot_map (l : List RotationOutcome) :
    attemptsOf (l.map Ev.rotationRequest) = [] := by
  induction l with
  | nil => rfl
  | cons x xs ih => simp [attemptsOf, List.filterMap_cons, ih]

theorem sleepsOf_rot_map (l : List RotationOutcome) :
    sleepsOf (l.map Ev.rotationRequest) = [] := by
  induction l with
  | nil => rfl
  | cons x xs ih => simp [sleepsOf, List.filterMap_cons, ih]

theorem rotationsOf_rot_map (l : List RotationOutcome) :
    rotationsOf (l.map Ev.rotationRequest) = l := by
  induction l with
  | nil => rfl
  | cons x xs ih => simpa [rotationsOf, List.filterMap_cons] using ih

/-- A non-final iteration on a retryable outcome records exactly one
HTTP attempt, one rotation request and one backoff sleep of
`backoffFactor * attempt` seconds, then continues. -/
theorem request_iter_retry_next (cfg : TorCfg) (o : AttemptOutcome) (attempt : Nat)
    (s : LoopState) (hne : attempt ≠ cfg.maxRetries) (ho : retryable o) :
    ∃ s2 ot, request_iter cfg o attempt s =
      .next s2 [.httpAttempt attempt, .rotationRequest ot,
        .backoffSleep (cfg.backoffFactor * (attempt : Rat))] := by
  cases o with
  | transportError =>
      simp only [request_iter, handle_request_exception, IterOut.withEvs, if_neg hne]
      exact ⟨_, _, rfl⟩
  | response st =>
      by_cases h403 : st = 403 ∨ st = 429
      · simp only [request_iter, if_pos h403, if_neg hne]
        exact ⟨_, _, rfl⟩
      · have hraise : raise_for_status_raises st = true := by
          simp [raise_for_status_raises, ho.1, ho.2]
        simp only [request_iter, if_neg h403, hraise, if_pos,
          handle_request_exception, IterOut.withEvs, if_neg hne]
        exact ⟨_, _, rfl⟩

/-- The final iteration on a retryable outcome records the HTTP
attempt followed only by rotation requests — two of them for 403/429
(once in the status branch, once in the handler after
`raise_for_status` raises), one otherwise — and terminates with the
propagated error. -/
theorem request_iter_retry_final (cfg : TorCfg) (o : AttemptOutcome)
    (s : LoopState) (ho : retryable o) :
    ∃ rots : List RotationOutcome,
      request_iter cfg o cfg.maxRetries s =
        .done (errResult o)
          (.httpAttempt cfg.maxRetries :: rots.map Ev.rotationRequest) ∧
      rots.length = rotationsOnFinal o := by
  cases o with
  | transportError =>
      refine ⟨[(renew_ip_step cfg s).2], ?_, rfl⟩
      simp [request_iter, handle_request_exception, IterOut.withEvs, errResult]
  | response st =>
      by_cases h403 : st = 403 ∨ st = 429
      · refine ⟨[(renew_ip_step cfg s).2,
          (renew_ip_step cfg (renew_ip_step cfg s).1).2], ?_, ?_⟩
        · simp [request_iter, h403, handle_request_exception, IterOut.withEvs, errResult]
        · simp [rotationsOnFinal, h403]
      · have hraise : raise_for_status_raises st = true := by
          simp [raise_for_status_raises, ho.1, ho.2]
        refine ⟨[(renew_ip_step cfg s).2], ?_, ?_⟩
        · simp [request_iter, h403, hraise, handle_request_exception,
            IterOut.withEvs, errResult]
        · simp [rotationsOnFinal, h403]

/-- The final iteration never continues the loop: whatever the HTTP
attempt yields, it returns or raises. -/
theorem request_iter_final_done (cfg : TorCfg) (o : AttemptOutcome)
    (s : LoopState) :
    ∃ r evs, request_iter cfg o cfg.maxRetries s = .done r evs ∧
      r ≠ .exhausted := by
  cases o with
  | transportError =>
      refine ⟨.transportFail, [.httpAttempt cfg.maxRetries,
        .rotationRequest (renew_ip_step cfg s).2], ?_, by simp⟩
      simp [request_iter, handle_request_exception, IterOut.withEvs]
  | response st =>
      by_cases h403 : st = 403 ∨ st = 429
      · refine ⟨.httpError st, [.httpAttempt cfg.maxRetries,
          .rotationRequest (renew_ip_step cfg s).2,
          .rotationRequest (renew_ip_step cfg (renew_ip_step cfg s).1).2], ?_, by simp⟩
        simp [request_iter, h403, handle_request_exception, IterOut.withEvs]
      · by_cases hraise : raise_for_status_raises st = true
        · refine ⟨.httpError st, [.httpAttempt cfg.maxRetries,
            .rotationRequest (renew_ip_step cfg s).2], ?_, by simp⟩
          simp [request_iter, h403, hraise, handle_request_exception, IterOut.withEvs]
        · refine ⟨.success st, [.httpAttempt cfg.maxRetries], ?_, by simp⟩
          simp [request_iter, h403, hraise]

/-- No iteration terminates the call with the post-loop `exhausted`
outcome: every `done` carries a returned response or a raised error. -/
theorem request_iter_done_ne_exhausted (cfg : TorCfg) (o : AttemptOutcome)
    (attempt : Nat) (s : LoopState) (r : ReqResult) (evs : List Ev)
    (h : request_iter cfg o attempt s = .done r evs) : r ≠ .exhausted := by
  cases o with
  | transportError =>
      simp only [request_iter, handle_request_exception, IterOut.withEvs] at h
      by_cases hfin : attempt = cfg.maxRetries
      · simp only [if_pos hfin] at h
        cases h
        simp
      · simp only [if_neg hfin] at h
        cases h
  | response st =>
      by_cases h403 : st = 403 ∨ st = 429
      · simp only [request_iter, if_pos h403, handle_request_exception,
          IterOut.withEvs] at h
        by_cases hfin : attempt = cfg.maxRetries
        · simp only [if_pos hfin] at h
          cases h
          simp
        · simp only [if_neg hfin] at h
          cases h
      · by_cases hraise : raise_for_status_raises st = true
        · simp only [request_iter, if_neg h403, hraise, if_pos,
            handle_request_exception, IterOut.withEvs] at h
          by_cases hfin : attempt = cfg.maxRetries
          · simp only [if_pos hfin] at h
            cases h
            simp
          · simp only [if_neg hfin] at h
            cases h
        · simp only [request_iter, if_neg h403, hraise] at h
          simp only [Bool.false_eq_true, if_false] at h
          cases h
          simp

/-- Default configuration from `configurations/tor_configs.py`:
3 retries, backoff factor 1.5, 10s NEWNYM cooldown, 10s build wait. -/
def defaultCfg : TorCfg where
  maxRetries := 3
  backoffFactor := 3 / 2
  newnymCooldown := 10
  newnymBuildWait := 10

/-- A concrete loop state: fresh controller, clock at 100s. -/
def state100 : LoopState where
  ctrl := { last_newnym_ts := 0 }
  now := 100

/-- When every attempt yields the same retryable outcome, the loop runs
all its iterations, records one HTTP attempt per attempt number, sleeps
`backoffFactor * attempt` after each non-final attempt, requests
`rotationsOnFinal` rotations on the final attempt and one per earlier
attempt, and propagates the error of the final attempt. -/
theorem request_loop_uniform (cfg : TorCfg) (o : AttemptOutcome) (ho : retryable o)
    (outcomes : Nat → AttemptOutcome) (hout : ∀ n, outcomes n = o) :
    ∀ (fuel attempt : Nat) (s : LoopState), 1 ≤ fuel →
      attempt + fuel = cfg.maxRetries + 1 →
      ∃ evs, request_loop cfg outcomes fuel attempt s = (errResult o, evs) ∧
        attemptsOf evs = List.range' attempt fuel ∧
        sleepsOf evs =
          (List.range' attempt (fuel - 1)).map (fun i => cfg.backoffFactor * (i : Rat)) ∧
        (rotationsOf evs).length = (fuel - 1) + rotationsOnFinal o := by
  intro fuel
  induction fuel with
  | zero => intro attempt s h; omega
  | succ k ih =>
      intro attempt s _ hsum
      by_cases hk : k = 0
      · subst hk
        have ha : attempt = cfg.maxRetries := by omega
        subst ha
        obtain ⟨rots, hiter, hlen⟩ := request_iter_retry_final cfg o s ho
        refine ⟨Ev.httpAttempt cfg.maxRetries :: rots.map Ev.rotationRequest,
          ?_, ?_, ?_, ?_⟩
        · simp only [request_loop, hout, hiter]
        · simp [attemptsOf, List.filterMap_cons, attemptsOf_rot_map]
        · simp [sleepsOf, List.filterMap_cons, sleepsOf_rot_map]
        · have h0 : rotationsOf
              (Ev.httpAttempt cfg.maxRetries :: rots.map Ev.rotationRequest) =
              rotationsOf (rots.map Ev.rotationRequest) := rfl
          rw [h0, rotationsOf_rot_map, hlen]
          omega
      · have hne : attempt ≠ cfg.maxRetries := by omega
        obtain ⟨s2, ot, hiter⟩ := request_iter_retry_next cfg o attempt s hne ho
        obtain ⟨evs2, hloop2, hatt2, hsleep2, hrot2⟩ :=
          ih (attempt + 1) s2 (by omega) (by omega)
        refine ⟨[Ev.httpAttempt attempt, Ev.rotationRequest ot,
          Ev.backoffSleep (cfg.backoffFactor * (attempt : Rat))] ++ evs2,
          ?_, ?_, ?_, ?_⟩
        · simp only [request_loop, hout, hiter, hloop2]
        · rw [attemptsOf_append, hatt2]
          have : List.range' attempt (k + 1) = attempt :: List.range' (attempt + 1) k :=
            List.range'_succ attempt k 1
          rw [this]
          simp [attemptsOf, List.filterMap_cons]
        · rw [sleepsOf_append, hsleep2]
          have hk1 : k = (k - 1) + 1 := by omega
          have : List.range' attempt (k + 1 - 1) =
              attempt :: List.range' (attempt + 1) (k - 1) := by
            rw [Nat.add_sub_cancel, hk1]
            exact List.range'_succ attempt (k - 1) 1
          rw [this]
          simp [sleepsOf, List.filterMap_cons]
        · rw [rotationsOf_append, List.length_append, hrot2]
          simp only [rotationsOf, List.filterMap_cons, List.filterMap_nil]
          simp only [List.length_cons, List.length_nil]
          omega

/-- The loop never falls through: starting anywhere inside the
iteration range, it returns or raises before running out of fuel. -/
theorem request_loop_ne_exhausted (cfg : TorCfg) (outcomes : Nat → AttemptOutcome) :
    ∀ (fuel attempt : Nat) (s : LoopState), 1 ≤ fuel →
      attempt + fuel = cfg.maxRetries + 1 →
      (request_loop cfg outcomes fuel attempt s).1 ≠ .exhausted := by
  intro fuel
  induction fuel with
  | zero => intro attempt s h; omega
  | succ k ih =>
      intro attempt s _ hsum
      by_cases hk : k = 0
      · subst hk
        have ha : attempt = cfg.maxRetries := by omega
        subst ha
        obtain ⟨r, evs, hiter, hnex⟩ :=
          request_iter_final_done cfg (outcomes cfg.maxRetries) s
        simp only [request_loop, hiter]
        exact hnex
      · cases hiter : request_iter cfg (outcomes attempt) attempt s with
        | done r evs =>
            simp only [request_loop, hiter]
            exact request_iter_done_ne_exhausted cfg (outcomes attempt) attempt s r evs hiter
        | next s2 evs =>
            simp only [request_loop, hiter]
            exact ih (attempt + 1) s2 (by omega) (by omega)

/-- C1: when every HTTP attempt yields status 429 (or 403), `request`
terminates by propagating that status as an error after exactly
`maxRetries` HTTP attempts, with exactly `maxRetries - 1` backoff
sleeps, the sleep after attempt `i` (before attempt `i + 1`) lasting
`backoffFactor * i` seconds. -/
theorem request_rate_limited_exhausts_retries (cfg : TorCfg) (st : Nat)
    (hst : st = 403 ∨ st = 429) (outcomes : Nat → AttemptOutcome)
    (hout : ∀ n, outcomes n = .response st) (s0 : LoopState)
    (hmax : 1 ≤ cfg.maxRetries) :
    ∃ evs, tor_request cfg outcomes s0 = (.httpError st, evs) ∧
      (attemptsOf evs).length = cfg.maxRetries ∧
      attemptsOf evs = List.range' 1 cfg.maxRetries ∧
      sleepsOf evs =
        (List.range' 1 (cfg.maxRetries - 1)).map (fun i => cfg.backoffFactor * (i : Rat)) := by
  have ho : retryable (.response st) := by
    rcases hst with h | h <;> subst h <;> exact ⟨by omega, by omega⟩
  obtain ⟨evs, hloop, hatt, hsleep, _⟩ :=
    request_loop_uniform cfg (.response st) ho outcomes hout
      cfg.maxRetries 1 s0 hmax (by omega)
  exact ⟨evs, hloop, by rw [hatt, List.length_range'], hatt, hsleep⟩

/-- Witness for `request_rate_limited_exhausts_retries` with the
default configuration (3 retries, backoff factor 1.5) and every
attempt yielding 429. -/
theorem request_rate_limited_exhausts_retries_witness :
    ∃ evs,
      tor_request defaultCfg (fun _ => .response 429) state100 = (.httpError 429, evs) ∧
      (attemptsOf evs).length = defaultCfg.maxRetries ∧
      attemptsOf evs = List.range' 1 defaultCfg.maxRetries ∧
      sleepsOf evs = (List.range' 1 (defaultCfg.maxRetries - 1)).map
        (fun i => defaultCfg.backoffFactor * (i : Rat)) :=
  request_rate_limited_exhausts_retries defaultCfg 429 (Or.inr rfl)
    (fun _ => .response 429) (fun _ => rfl) state100 (by decide)

/-- C8: for `maxRetries ≥ 1` the code path after the retry loop (the
`RuntimeError` at the bottom of `request`) is unreachable: whatever
the attempts yield, every iteration returns, raises or continues, and
the final iteration always returns or raises. -/
theorem request_never_falls_out_of_loop (cfg : TorCfg)
    (outcomes : Nat → AttemptOutcome) (s0 : LoopState)
    (hmax : 1 ≤ cfg.maxRetries) :
    (tor_request cfg outcomes s0).1 ≠ .exhausted :=
  request_loop_ne_exhausted cfg outcomes cfg.maxRetries 1 s0 hmax (by omega)

/-- Witness for `request_never_falls_out_of_loop` at the default
configuration with all attempts failing at transport level. -/
theorem request_never_falls_out_of_loop_witness :
    (tor_request defaultCfg (fun _ => .transportError) state100).1 ≠ .exhausted :=
  request_never_falls_out_of_loop defaultCfg (fun _ => .transportError) state100
    (by decide)

/-- Configuration with two retries, used to exhibit the handling of a
404 response. -/
def c2Cfg : TorCfg where
  maxRetries := 2
  backoffFactor := 3 / 2
  newnymCooldown := 10
  newnymBuildWait := 10

/-- Attempt 1 yields a 404 response, every later attempt a 200. -/
def c2Outcomes : Nat → AttemptOutcome :=
  fun n => if n = 1 then .response 404 else .response 200

/-- C2 counterexample: with two retries, a 404 on the first attempt is
NOT surfaced to the caller — `raise_for_status` raises inside the
`try`, the `RequestException` handler rotates and retries, and the
call returns the 200 of the second attempt after one rotation request
and one backoff sleep.  The claim that a non-403/429 error status is
surfaced without the rotate-and-retry handling is therefore false. -/
theorem request_404_rotates_and_retries :
    (tor_request c2Cfg c2Outcomes state100).1 = .success 200 ∧
    (rotationsOf (tor_request c2Cfg c2Outcomes state100).2).length = 1 ∧
    (sleepsOf (tor_request c2Cfg c2Outcomes state100).2).length = 1 ∧
    (attemptsOf (tor_request c2Cfg c2Outcomes state100).2).length = 2 := by
  decide

/-- C2 amended: a response whose status is an error per
`raise_for_status` (4xx/5xx) but not 403/429 is raised inside the
`try` block and handled exactly like a transport failure — identity
rotation plus backoff and retry — with the error propagating to the
caller only when the attempt count is exhausted; a non-error status is
returned to the caller immediately, with no rotation and no sleep. -/
theorem request_error_status_rotate_retry_policy (cfg : TorCfg) (s0 : LoopState)
    (hmax : 1 ≤ cfg.maxRetries) :
    (∀ (st : Nat) (outcomes : Nat → AttemptOutcome), 400 ≤ st → st < 600 →
        st ≠ 403 → st ≠ 429 → (∀ n, outcomes n = .response st) →
        ∃ evs, tor_request cfg outcomes s0 = (.httpError st, evs) ∧
          (attemptsOf evs).length = cfg.maxRetries ∧
          (rotationsOf evs).length = cfg.maxRetries ∧
          sleepsOf evs = (List.range' 1 (cfg.maxRetries - 1)).map
            (fun i => cfg.backoffFactor * (i : Rat))) ∧
    (∀ (st : Nat) (outcomes : Nat → AttemptOutcome), ¬(400 ≤ st ∧ st < 600) →
        outcomes 1 = .response st →
        tor_request cfg outcomes s0 = (.success st, [.httpAttempt 1])) := by
  constructor
  · intro st outcomes h4 h6 hn403 hn429 hout
    obtain ⟨evs, hloop, hatt, hsleep, hrot⟩ :=
      request_loop_uniform cfg (.response st) ⟨h4, h6⟩ outcomes hout
        cfg.maxRetries 1 s0 hmax (by omega)
    refine ⟨evs, hloop, by rw [hatt, List.length_range'], ?_, hsleep⟩
    rw [hrot]
    have : rotationsOnFinal (.response st) = 1 := by
      simp [rotationsOnFinal, hn403, hn429]
    rw [this]
    omega
  · intro st outcomes hne h1
    obtain ⟨k, hk⟩ : ∃ k, cfg.maxRetries = k + 1 := ⟨cfg.maxRetries - 1, by omega⟩
    have h403 : ¬(st = 403 ∨ st = 429) := by
      rintro (rfl | rfl) <;> exact hne ⟨by omega, by omega⟩
    have hraise : ¬raise_for_status_raises st = true := by
      simp only [raise_for_status_raises, Bool.and_eq_true, decide_eq_true_eq]
      exact hne
    simp only [tor_request, hk, request_loop, h1, request_iter, if_neg h403,
      if_neg hraise]

/-- Witness for `request_error_status_rotate_retry_policy` with the
default configuration: all attempts 404 exhausts the retries with one
rotation per attempt; a 200 on the first attempt returns at once. -/
theorem request_error_status_rotate_retry_policy_witness :
    (∃ evs,
      tor_request defaultCfg (fun _ => .response 404) state100 = (.httpError 404, evs) ∧
      (attemptsOf evs).length = defaultCfg.maxRetries ∧
      (rotationsOf evs).length = defaultCfg.maxRetries ∧
      sleepsOf evs = (List.range' 1 (defaultCfg.maxRetries - 1)).map
        (fun i => defaultCfg.backoffFactor * (i : Rat))) ∧
    tor_request defaultCfg (fun _ => .response 200) state100 =
      (.success 200, [.httpAttempt 1]) :=
  ⟨(request_error_status_rotate_retry_policy defaultCfg state100 (by decide)).1 404
      (fun _ => .response 404) (by decide) (by decide) (by decide) (by decide)
      (fun _ => rfl),
    (request_error_status_rotate_retry_policy defaultCfg state100 (by decide)).2 200
      (fun _ => .response 200) (by decide) rfl⟩

/-- When the loop reaches the final attempt because every earlier
outcome was retryable, and the final attempt yields 403 or 429, the
recorded events end with the final HTTP attempt followed by exactly
two rotation requests, with one rotation request per earlier
attempt. -/
theorem request_loop_final_rate_limit (cfg : TorCfg)
    (outcomes : Nat → AttemptOutcome) (st : Nat) (hst : st = 403 ∨ st = 429)
    (hfin : outcomes cfg.maxRetries = .response st) :
    ∀ (fuel attempt : Nat) (s : LoopState), 1 ≤ fuel →
      attempt + fuel = cfg.maxRetries + 1 →
      (∀ n, attempt ≤ n → n < cfg.maxRetries → retryable (outcomes n)) →
      ∃ pre o1 o2, request_loop cfg outcomes fuel attempt s =
        (.httpError st, pre ++ [.httpAttempt cfg.maxRetries, .rotationRequest o1,
          .rotationRequest o2]) ∧
        (rotationsOf pre).length = fuel - 1 := by
  intro fuel
  induction fuel with
  | zero => intro attempt s h; omega
  | succ k ih =>
      intro attempt s _ hsum hearly
      by_cases hk : k = 0
      · subst hk
        have ha : attempt = cfg.maxRetries := by omega
        subst ha
        have hretry : retryable (.response st) := by
          rcases hst with h | h <;> subst h <;> exact ⟨by omega, by omega⟩
        obtain ⟨rots, hiter, hlen⟩ := request_iter_retry_final cfg (.response st) s hretry
        have hlen2 : rots.length = 2 := by
          rw [hlen]
          simp [rotationsOnFinal, hst]
        obtain ⟨o1, o2, ho12⟩ := List.length_eq_two.mp hlen2
        subst ho12
        refine ⟨[], o1, o2, ?_, rfl⟩
        rw [← hfin] at hiter
        simp only [request_loop, hiter, errResult, List.map_cons, List.map_nil,
          List.nil_append]
        rw [hfin]
      · have hne : attempt ≠ cfg.maxRetries := by omega
        have hretry : retryable (outcomes attempt) :=
          hearly attempt (le_refl attempt) (by omega)
        obtain ⟨s2, ot, hiter⟩ :=
          request_iter_retry_next cfg (outcomes attempt) attempt s hne hretry
        obtain ⟨pre2, o1, o2, hloop2, hrot2⟩ :=
          ih (attempt + 1) s2 (by omega) (by omega)
            (fun n hn hn2 => hearly n (by omega) hn2)
        refine ⟨[Ev.httpAttempt attempt, Ev.rotationRequest ot,
          Ev.backoffSleep (cfg.backoffFactor * (attempt : Rat))] ++ pre2, o1, o2, ?_, ?_⟩
        · have hiter2 : request_iter cfg (outcomes attempt) attempt s =
              .next s2 [Ev.httpAttempt attempt, Ev.rotationRequest ot,
                Ev.backoffSleep (cfg.backoffFactor * (attempt : Rat))] := hiter
          simp only [request_loop, hiter2, hloop2, List.append_assoc]
        · rw [rotationsOf_append, List.length_append, hrot2]
          have h1 : (rotationsOf [Ev.httpAttempt attempt, Ev.rotationRequest ot,
              Ev.backoffSleep (cfg.backoffFactor * (attempt : Rat))]).length = 1 := rfl
          rw [h1]
          omega

/-- C9: whenever the loop reaches its final attempt (all earlier
attempts failed retryably) and that attempt yields 403 or 429,
`renew_ip` is invoked twice before the error propagates — once in the
status branch and once in the exception handler entered when
`raise_for_status` raises — each invocation passing through the
controller cooldown gate, whose outcome `o1` resp. `o2` is recorded. -/
theorem request_final_rate_limit_rotates_twice (cfg : TorCfg)
    (outcomes : Nat → AttemptOutcome) (s0 : LoopState) (st : Nat)
    (hmax : 1 ≤ cfg.maxRetries)
    (hearly : ∀ n, 1 ≤ n → n < cfg.maxRetries → retryable (outcomes n))
    (hst : st = 403 ∨ st = 429)
    (hfin : outcomes cfg.maxRetries = .response st) :
    ∃ pre o1 o2, tor_request cfg outcomes s0 =
      (.httpError st, pre ++ [.httpAttempt cfg.maxRetries, .rotationRequest o1,
        .rotationRequest o2]) ∧
      (rotationsOf pre).length = cfg.maxRetries - 1 :=
  request_loop_final_rate_limit cfg outcomes st hst hfin cfg.maxRetries 1 s0 hmax
    (by omega) (fun n hn hn2 => hearly n hn hn2)

/-- Witness for `request_final_rate_limit_rotates_twice`: default
configuration, transport errors on attempts 1 and 2, a 429 on the
final attempt. -/
theorem request_final_rate_limit_rotates_twice_witness :
    ∃ pre o1 o2,
      tor_request defaultCfg
          (fun n => if n = 3 then .response 429 else .transportError) state100 =
        (.httpError 429, pre ++ [.httpAttempt defaultCfg.maxRetries,
          .rotationRequest o1, .rotationRequest o2]) ∧
      (rotationsOf pre).length = defaultCfg.maxRetries - 1 :=
  request_final_rate_limit_rotates_twice defaultCfg
    (fun n => if n = 3 then .response 429 else .transportError) state100 429
    (by decide)
    (fun n _ hn2 => by
      have : n ≠ 3 := by
        intro h
        rw [h] at hn2
        exact absurd hn2 (by decide)
      simp [this, retryable])
    (Or.inr rfl) (by decide)

/-! ## Exit-IP probe and time-based rotation
(`tor/session_manager.py`, `_maybe_update_ip_cache` lines 110-127 and
`_maybe_rotate_by_time` lines 163-172) -/

/-- The session-manager fields read and written by the probe and by
the time-based rotation policy. -/
structure IpCacheState where
  session_active : Bool
  current_ip : Option String
  last_ip_change_time : Option Rat
  last_ip_check_ts : Rat
deriving DecidableEq

/-- Model of `TorSessionManager._maybe_update_ip_cache`: rate-limited probe.
`probe` is what `_fetch_exit_ip_through_tor` observed (`none` on
failure).  When the observed IP differs from the cached one, both
`current_ip` and `last_ip_change_time` are updated. -/
def maybe_update_ip_cache (ipCheckCooldown : Rat) (s : IpCacheState) (now : Rat)
    (probe : Option String) : IpCacheState :=
  if now - s.last_ip_check_ts < ipCheckCooldown then s
  else
    let s1 := { s with last_ip_check_ts := now }
    match probe with
    | none => s1
    | some ip =>
        if s1.current_ip ≠ some ip then
          { s1 with current_ip := some ip, last_ip_change_time := some now }
        else s1

/-- The condition of `TorSessionManager._maybe_rotate_by_time`: rotate
when the session is active, an identity-change time is recorded, and
more than `ip_renew_interval` seconds have passed since it. -/
def rotate_by_time_condition (ipRenewInterval : Rat) (s : IpCacheState)
    (now : Rat) : Bool :=
  s.session_active &&
    match s.last_ip_change_time with
    | none => false
    | some t => decide (ipRenewInterval < now - t)

/-- Whether the probe observation would count as an IP change for the
state `s`. -/
def probe_changes (s : IpCacheState) (probe : Option String) : Bool :=
  match probe with
  | none => false
  | some ip => decide (s.current_ip ≠ some ip)

/-- A state in which the probe ran long ago, the session is active and
the cached IP is "A", last changed at time 0. -/
def c3State : IpCacheState where
  session_active := true
  current_ip := some "A"
  last_ip_change_time := some 0
  last_ip_check_ts := 0

/-- C3 counterexample: two runs that differ only in the IP the probe
observes at time 100 ("A", unchanged, versus "B", changed) make
opposite time-based rotation decisions at time 1900 with the default
1800s renew interval: observing a changed IP resets
`last_ip_change_time` and defers the rotation.  The probe outcome
therefore does gate a rotation decision. -/
theorem probe_observation_gates_time_rotation :
    rotate_by_time_condition 1800
        (maybe_update_ip_cache 30 c3State 100 (some "A")) 1900 = true ∧
    rotate_by_time_condition 1800
        (maybe_update_ip_cache 30 c3State 100 (some "B")) 1900 = false := by
  refine ⟨?_, ?_⟩
  · norm_num [maybe_update_ip_cache, rotate_by_time_condition, c3State]
  · simp only [maybe_update_ip_cache, rotate_by_time_condition, c3State]
    rw [if_neg (by norm_num : ¬((100 : Rat) - 0 < 30)),
      if_pos (by decide : some "A" ≠ some "B")]
    norm_num

/-- Field-level description of the probe update: it never touches
`session_active`, and it resets `last_ip_change_time` to the probe
time exactly when the rate limiter lets the probe run and the observed
IP differs from the cached one. -/
theorem maybe_update_fields (cd : Rat) (s : IpCacheState) (t : Rat)
    (p : Option String) :
    (maybe_update_ip_cache cd s t p).session_active = s.session_active ∧
    (maybe_update_ip_cache cd s t p).last_ip_change_time =
      (if ¬(t - s.last_ip_check_ts < cd) ∧ probe_changes s p = true
        then some t else s.last_ip_change_time) := by
  unfold maybe_update_ip_cache probe_changes
  by_cases hgate : t - s.last_ip_check_ts < cd
  · simp [hgate]
  · cases p with
    | none => simp [hgate]
    | some ip =>
        by_cases hc : s.current_ip ≠ some ip
        · simp [hgate, hc]
        · simp [hgate, hc]

/-- The time-based rotation condition reads only `session_active` and
`last_ip_change_time`. -/
theorem rotate_cond_congr (ri : Rat) (s1 s2 : IpCacheState) (now : Rat)
    (h1 : s1.session_active = s2.session_active)
    (h2 : s1.last_ip_change_time = s2.last_ip_change_time) :
    rotate_by_time_condition ri s1 now = rotate_by_time_condition ri s2 now := by
  simp only [rotate_by_time_condition, h1, h2]

/-- C3 amended: the probe observation influences the time-based
rotation decision only through whether the observed IP differs from
the cached one — two runs whose probes agree on that bit (in
particular, two runs whose probes both observe an unchanged IP, or
both a changed one) make identical time-based rotation decisions at
every later instant; retry handling and the controller cooldown never
read the probe result at all. -/
theorem probe_gates_rotation_only_via_change (cd ri : Rat) (s : IpCacheState)
    (t now : Rat) (p1 p2 : Option String)
    (h : probe_changes s p1 = probe_changes s p2) :
    rotate_by_time_condition ri (maybe_update_ip_cache cd s t p1) now =
      rotate_by_time_condition ri (maybe_update_ip_cache cd s t p2) now := by
  obtain ⟨ha1, hl1⟩ := maybe_update_fields cd s t p1
  obtain ⟨ha2, hl2⟩ := maybe_update_fields cd s t p2
  refine rotate_cond_congr ri _ _ now (by rw [ha1, ha2]) ?_
  rw [hl1, hl2, h]

/-- Witness for `probe_gates_rotation_only_via_change`: two probes
observing different but both-changed IPs ("B" and "C") yield the same
rotation decision. -/
theorem probe_gates_rotation_only_via_change_witness :
    rotate_by_time_condition 1800
        (maybe_update_ip_cache 30 c3State 100 (some "B")) 1900 =
      rotate_by_time_condition 1800
        (maybe_update_ip_cache 30 c3State 100 (some "C")) 1900 :=
  probe_gates_rotation_only_via_change 30 1800 c3State 100 1900
    (some "B") (some "C") (by decide)

/-! ## Session lifecycle
(`tor/session_manager.py`, `start_session` lines 176-190,
`_ensure_started` lines 58-60, the `request` entry lines 225-233,
`close` lines 273-283)

Besides `_ensure_session` during startup, the HTTP client is also
(re)built by the exit-IP probe: `request` runs `log_ip_status`
(line 229) before its retry loop, which runs the rate-limited
`_maybe_update_ip_cache`, whose `_fetch_exit_ip_through_tor` begins
with `self._ensure_session()` (line 102) — building the client even
when the probe request itself then fails.  The probe rate limiter is
the 30s `_ip_check_cooldown_seconds` clock `_last_ip_check_ts`
(0.0 at construction, untouched by `close`). -/

/-- Lifecycle fields of `TorSessionManager`: whether the
`requests.Session` object exists (`self.session is not None`), the
`session_active` flag (`state == Active` of the spec), and the probe
rate-limiter clock `_last_ip_check_ts`. -/
structure SessLifecycle where
  has_session : Bool
  session_active : Bool
  last_ip_check_ts : Rat
deriving DecidableEq

/-- Which startup steps fail: `controller.ensure_connected()` raising,
or the initial `renew_ip(initial=True)` raising (e.g. the NEWNYM
signal fails after the HTTP client was already built). -/
structure StartEnv where
  connect_fails : Bool
  renew_fails : Bool
deriving DecidableEq

/-- Model of `TorSessionManager.__init__`: no client, not active,
probe clock at 0.0. -/
def freshSession : SessLifecycle where
  has_session := false
  session_active := false
  last_ip_check_ts := 0

/-- Effect of one `log_ip_status` call on the lifecycle fields: when
the probe rate limiter allows (`now - _last_ip_check_ts` at least the
cooldown), `_maybe_update_ip_cache` stamps the clock and
`_fetch_exit_ip_through_tor` runs `_ensure_session()`, building the
HTTP client regardless of the probe outcome; otherwise nothing
happens to these fields. -/
def log_ip_status_effect (ipCheckCooldown : Rat) (s : SessLifecycle)
    (now : Rat) : SessLifecycle :=
  if now - s.last_ip_check_ts < ipCheckCooldown then s
  else { s with last_ip_check_ts := now, has_session := true }

/-- Model of `TorSessionManager.start_session`: connect the
controller, build the HTTP client (`_ensure_session`), perform the
initial rotation — whose logging runs the probe — and activate; on
any exception set `session_active = False` and return `False`,
without releasing a client that was already built. -/
def start_session (ipCheckCooldown : Rat) (s : SessLifecycle)
    (env : StartEnv) (now : Rat) : SessLifecycle × Bool :=
  if env.connect_fails then
    ({ s with session_active := false }, false)
  else
    let s1 : SessLifecycle := { s with has_session := true }
    if env.renew_fails then
      ({ s1 with session_active := false }, false)
    else
      (log_ip_status_effect ipCheckCooldown { s1 with session_active := true } now,
        true)

/-- Model of `TorSessionManager._ensure_started`: auto-start when not
active; the boolean result of `start_session` is ignored. -/
def ensure_started (ipCheckCooldown : Rat) (s : SessLifecycle)
    (env : StartEnv) (now : Rat) : SessLifecycle :=
  if s.session_active then s else (start_session ipCheckCooldown s env now).1

/-- State of the manager when control reaches the retry loop of
`request` (line 231): after `_ensure_started` (line 225) and the
pre-request `log_ip_status` (line 229).  `_maybe_rotate_by_time`
(line 226) is a no-op on these fields when the session is inactive,
and when it fires (active session) its internal logging only re-runs
the same probe effect. -/
def request_entry (ipCheckCooldown : Rat) (s : SessLifecycle)
    (env : StartEnv) (now : Rat) : SessLifecycle :=
  log_ip_status_effect ipCheckCooldown (ensure_started ipCheckCooldown s env now) now

/-- Whether `request` issues the HTTP call: the code proceeds to
`self.session.request(...)` (line 233) unconditionally, so the call
is issued exactly when the client object exists at that point — built
by a successful or partially failed start, or rebuilt by the
pre-request probe — and a missing client aborts with an
`AttributeError` before any HTTP traffic. -/
def request_issues_http (ipCheckCooldown : Rat) (s : SessLifecycle)
    (env : StartEnv) (now : Rat) : Bool :=
  (request_entry ipCheckCooldown s env now).has_session

/-- Model of `TorSessionManager.close`: release the client,
deactivate; `_last_ip_check_ts` is not reset. -/
def close_session (s : SessLifecycle) : SessLifecycle :=
  { s with has_session := false, session_active := false }

/-- Lifecycle operations on the manager: a `start_session` call, a
`close`, a `request` (its pre-loop phase), or any other
`log_ip_status` call (rotation logging, in-loop logging). -/
inductive SessOp
  | start (env : StartEnv) (now : Rat)
  | close
  | req (env : StartEnv) (now : Rat)
  | probe (now : Rat)
deriving DecidableEq

/-- Effect of one lifecycle operation on the lifecycle fields. -/
def apply_op (ipCheckCooldown : Rat) (s : SessLifecycle) : SessOp → SessLifecycle
  | .start env now => (start_session ipCheckCooldown s env now).1
  | .close => close_session s
  | .req env now => request_entry ipCheckCooldown s env now
  | .probe now => log_ip_status_effect ipCheckCooldown s now

/-- C5 counterexample: a `start_session` from fresh whose connect
succeeds but whose initial rotation fails leaves the HTTP client built
while the session is not active, so the claimed iff-invariant fails;
and after a `start_session` from fresh that fails at the connect step
(no client built), a `request` at wall-clock time 100 still issues
the HTTP call, because the pre-request probe is not rate-limited
(probe clock 0) and its `_ensure_session()` rebuilds the client —
refuting the claim that `request()` does not issue the HTTP call
after a failed start. -/
theorem failed_start_retains_client :
    (start_session 30 freshSession { connect_fails := false, renew_fails := true }
        100).1.has_session = true ∧
    (start_session 30 freshSession { connect_fails := false, renew_fails := true }
        100).1.session_active = false ∧
    (start_session 30 freshSession { connect_fails := false, renew_fails := true }
        100).2 = false ∧
    request_issues_http 30 freshSession { connect_fails := true, renew_fails := false }
      100 = true := by
  refine ⟨rfl, rfl, rfl, ?_⟩
  unfold request_issues_http request_entry ensure_started start_session
    log_ip_status_effect freshSession
  norm_num

/-- C5 amended: only the forward implication of the claimed invariant
holds in every reachable state — `Active` implies the client exists —
while a start that fails after building the client retains it without
being `Active`.  `request` issues the HTTP call exactly when the
client exists after auto-start or the pre-request exit-IP probe is
not rate-limited (the probe rebuilds the client via
`_ensure_session()`); in particular, after a connect-failed start
from a fresh manager the call is issued at any wall-clock time past
the 30s probe cooldown, despite the failed start. -/
theorem session_lifecycle_invariant (cd : Rat) (ops : List SessOp)
    (s : SessLifecycle) (env : StartEnv) (now : Rat) :
    ((ops.foldl (apply_op cd) freshSession).session_active = true →
      (ops.foldl (apply_op cd) freshSession).has_session = true) ∧
    (request_issues_http cd s env now =
      ((ensure_started cd s env now).has_session ||
        !(decide (now - (ensure_started cd s env now).last_ip_check_ts < cd)))) ∧
    (env.connect_fails = true → 30 ≤ now →
      request_issues_http 30 freshSession env now = true) := by
  have logp : ∀ (s2 : SessLifecycle) (now2 : Rat),
      (s2.session_active = true → s2.has_session = true) →
      ((log_ip_status_effect cd s2 now2).session_active = true →
        (log_ip_status_effect cd s2 now2).has_session = true) := by
    intro s2 now2 hs2
    unfold log_ip_status_effect
    by_cases hg : now2 - s2.last_ip_check_ts < cd
    · simp only [if_pos hg]
      exact hs2
    · simp only [if_neg hg]
      intro _
      trivial
  have startp : ∀ (s2 : SessLifecycle) (env2 : StartEnv) (now2 : Rat),
      (s2.session_active = true → s2.has_session = true) →
      ((start_session cd s2 env2 now2).1.session_active = true →
        (start_session cd s2 env2 now2).1.has_session = true) := by
    intro s2 env2 now2 hs2
    unfold start_session
    by_cases h1 : env2.connect_fails = true
    · simp [h1]
    · simp only [Bool.not_eq_true] at h1
      by_cases h2 : env2.renew_fails = true
      · simp [h1, h2]
      · simp only [Bool.not_eq_true] at h2
        simp only [h1, h2, Bool.false_eq_true, if_false]
        exact logp _ now2 (fun _ => rfl)
  have ensp : ∀ (s2 : SessLifecycle) (env2 : StartEnv) (now2 : Rat),
      (s2.session_active = true → s2.has_session = true) →
      ((ensure_started cd s2 env2 now2).session_active = true →
        (ensure_started cd s2 env2 now2).has_session = true) := by
    intro s2 env2 now2 hs2
    unfold ensure_started
    by_cases h1 : s2.session_active = true
    · simp only [if_pos h1]
      exact hs2
    · simp only [if_neg h1]
      exact startp s2 env2 now2 hs2
  have inv : ∀ (l : List SessOp) (s2 : SessLifecycle),
      (s2.session_active = true → s2.has_session = true) →
      ((l.foldl (apply_op cd) s2).session_active = true →
        (l.foldl (apply_op cd) s2).has_session = true) := by
    intro l
    induction l with
    | nil => intro s2 hs2; exact hs2
    | cons op rest ih =>
        intro s2 hs2
        refine ih (apply_op cd s2 op) ?_
        cases op with
        | start env2 now2 => exact startp s2 env2 now2 hs2
        | close => simp [apply_op, close_session]
        | req env2 now2 => exact logp _ now2 (ensp s2 env2 now2 hs2)
        | probe now2 => exact logp s2 now2 hs2
  have hchar : ∀ (cd2 : Rat) (s2 : SessLifecycle) (env2 : StartEnv) (now2 : Rat),
      request_issues_http cd2 s2 env2 now2 =
        ((ensure_started cd2 s2 env2 now2).has_session ||
          !(decide (now2 - (ensure_started cd2 s2 env2 now2).last_ip_check_ts < cd2))) := by
    intro cd2 s2 env2 now2
    unfold request_issues_http request_entry log_ip_status_effect
    by_cases hg : now2 - (ensure_started cd2 s2 env2 now2).last_ip_check_ts < cd2
    · simp [hg]
    · simp [hg]
  refine ⟨inv ops freshSession (by intro h; cases h), hchar cd s env now, ?_⟩
  intro hcf h30
  have hens : ensure_started 30 freshSession env now =
      freshSession := by
    unfold ensure_started start_session
    simp [freshSession, hcf]
  rw [hchar 30 freshSession env now, hens]
  have h0 : freshSession.last_ip_check_ts = 0 := rfl
  have hfs : freshSession.has_session = false := rfl
  rw [h0, hfs, sub_zero, Bool.false_or, Bool.not_eq_true', decide_eq_false_iff_not]
  exact not_lt.mpr h30

/-- Witness for `session_lifecycle_invariant`: after a successful
start at time 10, `Active` implies the client exists; and a `request`
against a connect-failing daemon from a fresh manager at time 100
does issue the HTTP call. -/
theorem session_lifecycle_invariant_witness :
    ([SessOp.start { connect_fails := false, renew_fails := false } 10].foldl
        (apply_op 30) freshSession).has_session = true ∧
    request_issues_http 30 freshSession { connect_fails := true, renew_fails := false }
      100 = true :=
  ⟨(session_lifecycle_invariant 30
        [SessOp.start { connect_fails := false, renew_fails := false } 10]
        freshSession { connect_fails := true, renew_fails := false } 100).1
      (by
        simp only [List.foldl, apply_op, start_session, log_ip_status_effect,
          freshSession]
        norm_num),
    (session_lifecycle_invariant 30 []
        freshSession { connect_fails := true, renew_fails := false } 100).2.2
      rfl (by norm_num)⟩

/-! ## PR Newswire scraper
(`news_scrapers/pr_news_wire.py`)

Python `str.split()` (no separator) splits on runs of whitespace and
drops empty pieces; it is modelled by a structural recursion over the
character list.  `_clean_paragraph_text` collapses every whitespace
run to a single space and strips the ends, which is the same as
re-joining those words with single spaces. -/

/-- Maximal non-whitespace runs of a character list, accumulating the
current word in reverse. -/
def wordsAux : List Char → List Char → List (List Char)
  | [], cur => if cur = [] then [] else [cur.reverse]
  | c :: cs, cur =>
      if c.isWhitespace then
        if cur = [] then wordsAux cs [] else cur.reverse :: wordsAux cs []
      else wordsAux cs (c :: cur)

/-- Python `s.split()` with no separator. -/
def pyWords (s : String) : List String :=
  (wordsAux s.toList []).map fun w => String.mk w

/-- Python `len(s.split())`, the word count used by the scraper. -/
def wordCount (s : String) : Nat := (pyWords s).length

/-- Model of `_clean_paragraph_text` (lines 21-23):
`re.sub(r"\s+", " ", text).strip()`. -/
def clean_paragraph_text (text : String) : String :=
  String.intercalate " " (pyWords text)

/-- Case folding of a character list (Python `re.IGNORECASE` on the
ASCII prefixes used here). -/
def lowerList (l : List Char) : List Char := l.map Char.toLower

/-- Prefix test on character lists. -/
def isPrefixList : List Char → List Char → Bool
  | [], _ => true
  | _ :: _, [] => false
  | a :: as, b :: bs => a == b && isPrefixList as bs

/-- The filter `re.match(r"^(SOURCE|Contact|View original|View source)",
text, re.IGNORECASE)` (lines 51-56). -/
def noise_paragraph (t : String) : Bool :=
  ["source", "contact", "view original", "view source"].any fun p =>
    isPrefixList p.toList (lowerList t.toList)

/-- One pass of the paragraph filter in `extract_pr_newswire_content`
(lines 42-65): clean the tag text, then drop it when empty, when it
starts with a noise prefix, when shorter than 40 characters, or when
already seen; otherwise append it. -/
def keep_paragraph (acc : List String) (raw : String) : List String :=
  if clean_paragraph_text raw = "" then acc
  else if noise_paragraph (clean_paragraph_text raw) = true then acc
  else if (clean_paragraph_text raw).length < 40 then acc
  else if clean_paragraph_text raw ∈ acc then acc
  else acc ++ [clean_paragraph_text raw]

/-- The kept paragraphs of `extract_pr_newswire_content`, in order.
`tag_texts` are the raw texts of the tags matched by the selectors
(after the noise-node `decompose`), concatenated over selectors in
document order — an input matching no selector yields `[]`. -/
def extract_paragraphs (tag_texts : List String) : List String :=
  tag_texts.foldl keep_paragraph []

/-- Model of `extract_pr_newswire_content` (line 67): the kept paragraphs
joined by blank lines. -/
def extract_pr_newswire_content (tag_texts : List String) : String :=
  String.intercalate "\n\n" (extract_paragraphs tag_texts)

/-- Model convention: `PRNewswireScraper` fetch results are strings; an empty string
stands for a failed fetch, and extraction is skipped on it. -/
def extracted_content (extract : String → String) (html : String) : String :=
  if html ≠ "" then extract html else ""

/-- Outcome of `scrape_article`: the returned content, and whether the
Playwright (rendered) fallback was invoked. -/
structure ScrapeResult where
  content : String
  used_rendered : Bool
deriving DecidableEq

/-- Model of `PRNewswireScraper.scrape_article` (lines 145-174): return the
static extraction when it reaches `min_words`; otherwise fetch the
rendered page and return whichever extraction has strictly more
words, preferring the static one on a tie. -/
def scrape_article (min_words : Nat) (extract : String → String)
    (html_req html_pw : String) : ScrapeResult :=
  let content_req := extracted_content extract html_req
  if min_words ≤ wordCount content_req then
    { content := content_req, used_rendered := false }
  else
    let content_pw := extracted_content extract html_pw
    { content :=
        if wordCount content_req < wordCount content_pw then content_pw
        else content_req,
      used_rendered := true }

/-- C6: with the threshold at its default 80, a static extraction of
at least 80 words (80 included) is returned as-is without invoking the
rendered fetch, and one of 79 words or fewer triggers the rendered
fetch. -/
theorem scrape_escalation_boundary (extract : String → String)
    (html_req html_pw : String) :
    (80 ≤ wordCount (extracted_content extract html_req) →
      scrape_article 80 extract html_req html_pw =
        { content := extracted_content extract html_req, used_rendered := false }) ∧
    (wordCount (extracted_content extract html_req) ≤ 79 →
      (scrape_article 80 extract html_req html_pw).used_rendered = true) := by
  constructor
  · intro h
    simp only [scrape_article, if_pos h]
  · intro h
    have hlt : ¬80 ≤ wordCount (extracted_content extract html_req) := by omega
    simp only [scrape_article, if_neg hlt]

/-- An 80-word string. -/
def eightyW : String := String.intercalate " " (List.replicate 80 "w")

set_option maxRecDepth 8000 in
/-- Witness for `scrape_escalation_boundary`: an 80-word static
extraction is returned without the rendered fetch; a 1-word one
escalates. -/
theorem scrape_escalation_boundary_witness :
    scrape_article 80 (fun s => s) eightyW "zzz" =
      { content := extracted_content (fun s => s) eightyW, used_rendered := false } ∧
    (scrape_article 80 (fun s => s) "w" "zzz").used_rendered = true :=
  ⟨(scrape_escalation_boundary (fun s => s) eightyW "zzz").1 (by decide),
    (scrape_escalation_boundary (fun s => s) "w" "zzz").2 (by decide)⟩

/-- C7: once both paths have been evaluated (the static extraction is
under the threshold), the rendered result is returned exactly when its
word count strictly exceeds the static one; on a tie or worse the
static result is returned; in particular a failed rendered fetch
(empty content, word count 0) yields the static result even though it
was under the threshold. -/
theorem scrape_better_result_selection (min_words : Nat)
    (extract : String → String) (html_req html_pw : String)
    (h : wordCount (extracted_content extract html_req) < min_words) :
    (wordCount (extracted_content extract html_req) <
        wordCount (extracted_content extract html_pw) →
      (scrape_article min_words extract html_req html_pw).content =
        extracted_content extract html_pw) ∧
    (wordCount (extracted_content extract html_pw) ≤
        wordCount (extracted_content extract html_req) →
      (scrape_article min_words extract html_req html_pw).content =
        extracted_content extract html_req) ∧
    (extracted_content extract html_pw = "" →
      (scrape_article min_words extract html_req html_pw).content =
        extracted_content extract html_req) := by
  have hlt : ¬min_words ≤ wordCount (extracted_content extract html_req) := by omega
  refine ⟨?_, ?_, ?_⟩
  · intro hgt
    simp only [scrape_article, if_neg hlt, if_pos hgt]
  · intro hle
    have : ¬wordCount (extracted_content extract html_req) <
        wordCount (extracted_content extract html_pw) := by omega
    simp only [scrape_article, if_neg hlt, if_neg this]
  · intro hempty
    simp only [scrape_article, if_neg hlt, hempty]
    have h0 : wordCount "" = 0 := rfl
    rw [if_neg (by rw [h0]; omega :
      ¬wordCount (extracted_content extract html_req) < wordCount "")]

/-- Witness for `scrape_better_result_selection`: a 2-word static
extraction against a 3-word rendered one (rendered wins), a 2-word
rendered one (tie, static wins), and a failed rendered fetch (static
wins). -/
theorem scrape_better_result_selection_witness :
    (scrape_article 80 (fun s => s) "alpha beta" "x y z").content =
      extracted_content (fun s => s) "x y z" ∧
    (scrape_article 80 (fun s => s) "alpha beta" "p q").content =
      extracted_content (fun s => s) "alpha beta" ∧
    (scrape_article 80 (fun s => s) "alpha beta" "").content =
      extracted_content (fun s => s) "alpha beta" :=
  ⟨(scrape_better_result_selection 80 (fun s => s) "alpha beta" "x y z"
      (by decide)).1 (by decide),
    (scrape_better_result_selection 80 (fun s => s) "alpha beta" "p q"
      (by decide)).2.1 (by decide),
    (scrape_better_result_selection 80 (fun s => s) "alpha beta" ""
      (by decide)).2.2 rfl⟩

/-- C10: for every input, the extracted paragraphs are pairwise
distinct, each at least 40 characters long in normalized form, and
none starts with a noise prefix (SOURCE / Contact / View original /
View source, case-insensitively); an input matching no selector
yields the empty string rather than an error. -/
theorem extract_content_paragraph_invariants (tag_texts : List String) :
    (extract_paragraphs tag_texts).Nodup ∧
    (∀ p ∈ extract_paragraphs tag_texts,
      40 ≤ p.length ∧ noise_paragraph p = false) ∧
    extract_pr_newswire_content [] = "" := by
  have inv : ∀ (l : List String) (acc : List String),
      (acc.Nodup ∧ ∀ p ∈ acc, 40 ≤ p.length ∧ noise_paragraph p = false) →
      ((l.foldl keep_paragraph acc).Nodup ∧
        ∀ p ∈ l.foldl keep_paragraph acc,
          40 ≤ p.length ∧ noise_paragraph p = false) := by
    intro l
    induction l with
    | nil => intro acc h; exact h
    | cons raw rest ih =>
        intro acc h
        refine ih (keep_paragraph acc raw) ?_
        unfold keep_paragraph
        by_cases h1 : clean_paragraph_text raw = ""
        · simp only [if_pos h1]; exact h
        · simp only [if_neg h1]
          by_cases h2 : noise_paragraph (clean_paragraph_text raw) = true
          · simp only [if_pos h2]; exact h
          · simp only [if_neg h2]
            by_cases h3 : (clean_paragraph_text raw).length < 40
            · simp only [if_pos h3]; exact h
            · simp only [if_neg h3]
              by_cases h4 : clean_paragraph_text raw ∈ acc
              · simp only [if_pos h4]; exact h
              · simp only [if_neg h4]
                constructor
                · rw [List.nodup_append]
                  exact ⟨h.1, List.nodup_singleton _, by
                    intro a ha hb
                    rw [List.mem_singleton] at hb
                    subst hb
                    exact h4 ha⟩
                · intro p hp
                  rcases List.mem_append.mp hp with hp | hp
                  · exact h.2 p hp
                  · rw [List.mem_singleton] at hp
                    subst hp
                    refine ⟨by omega, ?_⟩
                    rw [Bool.not_eq_true] at h2
                    exact h2
  refine ⟨(inv tag_texts [] ⟨List.nodup_nil, by intro p hp; cases hp⟩).1,
    (inv tag_texts [] ⟨List.nodup_nil, by intro p hp; cases hp⟩).2, rfl⟩

/-- A demo tag-text list whose single entry survives the filter. -/
def c10Demo : List String :=
  ["  Alpha beta gamma delta epsilon zeta eta theta iota  "]

set_option maxRecDepth 8000 in
/-- Witness for `extract_content_paragraph_invariants`: the cleaned
demo paragraph is kept, 50 characters long and free of noise
prefixes. -/
theorem extract_content_paragraph_invariants_witness :
    (extract_paragraphs c10Demo).Nodup ∧
    (40 ≤ ("Alpha beta gamma delta epsilon zeta eta theta iota" : String).length ∧
      noise_paragraph "Alpha beta gamma delta epsilon zeta eta theta iota" = false) :=
  ⟨(extract_content_paragraph_invariants c10Demo).1,
    (extract_content_paragraph_invariants c10Demo).2.1
      "Alpha beta gamma delta epsilon zeta eta theta iota" (by decide)⟩

end TorRC
